import Mathlib

/-!
# Verification of the Deno compiler worker (`cli/js/compiler.ts`)

This file is a shallow embedding of the compiler worker's single-message
handler (`compilerMain` in `cli/js/compiler.ts`).  The external TypeScript
engine (`ts.createProgram`, `ts.getPreEmitDiagnostics`, `program.emit`,
`ts.transpileModule`) and the host round-trips (`processImports`,
`processLocalImports`, `resolveModules`, `host.configure`) are treated as an
oracle: a record holding the results those external calls would return for
the request at hand.  The handler is then a pure function from a request and
an oracle to a trace of observable events (program construction, emit
invocation, posted responses, failed assertions, worker close).

The ignored-diagnostics code set (`ignoredDiagnostics` in
`compiler_util.ts`, not among the sources) is a parameter everywhere.
-/

namespace DenoCompiler

/-- A raw engine (TypeScript) diagnostic: a numeric code and message text. -/
structure TsDiagnostic where
  code : Nat
  messageText : String
deriving DecidableEq

/-- One translated wire diagnostic item (`diagnostics_util.ts`'s per-item
translation, modelled as carrying the code and message through). -/
structure DiagnosticItem where
  code : Nat
  message : String
deriving DecidableEq

/-- Translation of a single engine diagnostic into the wire item. -/
def fromTsDiagnosticItem (d : TsDiagnostic) : DiagnosticItem :=
  ⟨d.code, d.messageText⟩

/-- The wire `Diagnostic`: an ordered sequence of translated items. -/
structure Diagnostic where
  items : List DiagnosticItem
deriving DecidableEq

/-- `fromTypeScriptDiagnostic`: total, order-preserving translation of an
engine diagnostic list into the wire form. -/
def fromTypeScriptDiagnostic (ds : List TsDiagnostic) : Diagnostic :=
  ⟨ds.map fromTsDiagnosticItem⟩

/-- The result sent back for a `Compile` request (`CompileResult` in
`compiler.ts`). -/
structure CompileResult where
  emitSkipped : Bool
  diagnostics : Option Diagnostic
deriving DecidableEq

/-- `TranspileOnlyResult` (`compiler_api.ts`): `ts.transpileModule`'s
`outputText` (always a string) and optional `sourceMapText`. -/
structure TranspileOnlyResult where
  source : String
  map : Option String
deriving DecidableEq

/-- The inbound `CompilerRequest` tagged union of `compiler.ts`.  The wire
discriminant is a number; any value other than the three known kinds falls
into the `unknown` constructor (the `default` case of the switch). -/
inductive CompilerRequest where
  | compile (rootNames : List String) (configPath : Option String)
      (config : Option String) (bundle : Option Bool) (outFile : Option String)
  | runtimeCompile (rootName : String) (sources : Option (List (String × String)))
      (bundle : Option Bool) (options : Option String)
  | runtimeTranspile (sources : List (String × String)) (options : Option String)
  | unknown (type : Nat)

/-- Results of the external engine / host calls made while handling one
request.  The worker makes each call at most once, so a record of the
returned values determines the handler's behaviour. -/
structure EngineOracle where
  /-- `processImports` result for a `Compile` request's root names. -/
  resolvedRootModules : List String
  /-- `processConfigureResponse(host.configure(...))` result. -/
  configDiagnostics : Option (List TsDiagnostic)
  /-- `resolveModules([rootName])[0]` for a sourceless `RuntimeCompile`. -/
  resolvedRootName : String
  /-- `processLocalImports` / `processImports` result for `RuntimeCompile`. -/
  runtimeRootNames : List String
  /-- `ts.getPreEmitDiagnostics(program)`. -/
  preEmitDiagnostics : List TsDiagnostic
  /-- `program.emit().emitSkipped`. -/
  emitSkipped : Bool
  /-- `program.emit().diagnostics`. -/
  emitDiagnostics : List TsDiagnostic
  /-- The `writeFile(fileName, data)` calls the engine issues during emit. -/
  emitWrites : List (String × String)
  /-- `ts.transpileModule` on a `(fileName, inputText)` pair:
  `(outputText, sourceMapText)`. -/
  transpile : String → String → String × Option String

/-- JavaScript truthiness of an optional string (`config && config.length`,
truthy `configPath`): present and non-empty. -/
def strTruthy : Option String → Bool
  | none => false
  | some s => !(s == "")

/-- JavaScript truthiness of an optional boolean (`bundle`). -/
def boolTruthy : Option Bool → Bool
  | none => false
  | some b => b

/-- The pre-emit diagnostics filter of `compiler.ts`:
`.filter(({ code }) => !ignoredDiagnostics.includes(code))`. -/
def filterIgnored (ignored : List Nat) (ds : List TsDiagnostic) : List TsDiagnostic :=
  ds.filter (fun d => !(ignored.contains d.code))

/-- `diagnostics.length ? fromTypeScriptDiagnostic(diagnostics) : undefined`:
zero items are represented as an absent field, never as an empty
collection. -/
def diagListToWire (ds : List TsDiagnostic) : Option Diagnostic :=
  if ds.isEmpty then none else some (fromTypeScriptDiagnostic ds)

/-- The request-scoped `WriteFileState` fields observable in a
`RuntimeCompile` response: the accumulating filename→text map and the
optional accumulated bundle buffer (`Compile` requests forward their writes
to the host cache or the console instead; those writes do not reach the
response). -/
structure WriteFileState where
  bundle : Bool
  emitMap : List (String × String)
  emitBundle : Option String
deriving DecidableEq

/-- Record-style insertion: overwrite an existing key, else append. -/
def recordSet (m : List (String × String)) (k v : String) : List (String × String) :=
  if m.any (fun p => p.1 == k) then
    m.map (fun p => if p.1 == k then (k, v) else p)
  else m ++ [(k, v)]

/-- Modelled from the spec: `createWriteFile` (`compiler_util.ts`, not among
the sources).  Spec §4.2's policy table, `RuntimeCompile` rows: with
`bundle = false` insert `emitMap[fileName] = data`; with `bundle = true`
accumulate the data into the single `emitBundle` buffer. -/
def createWriteFile (st : WriteFileState) (fileName data : String) : WriteFileState :=
  if st.bundle then
    { st with emitBundle := some ((st.emitBundle.getD "") ++ data) }
  else
    { st with emitMap := recordSet st.emitMap fileName data }

/-- The `WriteFileState` after the engine's emit has issued the given
`writeFile` calls, starting from `emitMap = {}` and `emitBundle =
undefined` as in the `RuntimeCompile` arm of `compiler.ts`. -/
def runtimeEmitState (bundleB : Bool) (writes : List (String × String)) : WriteFileState :=
  writes.foldl (fun st w => createWriteFile st w.1 w.2)
    { bundle := bundleB, emitMap := [], emitBundle := none }

/-- The second element of a `RuntimeCompile` response:
`bundle ? state.emitBundle : state.emitMap`. -/
inductive RuntimeEmitOutput where
  | bundleText (b : Option String)
  | mapOutput (m : List (String × String))
deriving DecidableEq

/-- A posted response (argument of `postMessage`). -/
inductive Response where
  | compileResult (r : CompileResult)
  | runtimeResult (diagnostics : Option (List DiagnosticItem)) (output : RuntimeEmitOutput)
  | transpileResult (m : List (String × TranspileOnlyResult))
deriving DecidableEq

/-- Observable events of one request's handling, in order. -/
inductive Event where
  | programCreated
  | emitInvoked
  | posted (r : Response)
  | assertFailed
  | loggedUnhandled
  | workerClosed
deriving DecidableEq

/-- `processConfigureResponse` is reached only when
`config && config.length && configPath` holds; otherwise the local
`diagnostics` binding stays `undefined`. -/
def compileConfigDiagnostics (config configPath : Option String)
    (o : EngineOracle) : Option (List TsDiagnostic) :=
  if strTruthy config && strTruthy configPath then o.configDiagnostics else none

/-- The `Compile` arm of `compilerMain`'s switch (`compiler.ts` lines
95–180).  Mirrors the source's control flow: configuration parse
short-circuit, program construction, pre-emit diagnostics filter, the
single-root bundling assertion, emit, and the single posted
`CompileResult`. -/
def handleCompile (ignored : List Nat) (o : EngineOracle)
    (configPath config : Option String) (bundle : Option Bool) : List Event :=
  let configDiagnostics := compileConfigDiagnostics config configPath o
  if (configDiagnostics.getD []).isEmpty then
    let diagnostics := filterIgnored ignored o.preEmitDiagnostics
    if diagnostics.isEmpty then
      if boolTruthy bundle && !(o.resolvedRootModules.length == 1) then
        [Event.programCreated, Event.assertFailed]
      else
        [Event.programCreated, Event.emitInvoked,
         Event.posted (.compileResult ⟨o.emitSkipped, diagListToWire o.emitDiagnostics⟩),
         Event.workerClosed]
    else
      [Event.programCreated,
       Event.posted (.compileResult ⟨true, diagListToWire diagnostics⟩),
       Event.workerClosed]
  else
    [Event.posted
       (.compileResult ⟨true, diagListToWire (configDiagnostics.getD [])⟩),
     Event.workerClosed]

/-- The `RuntimeCompile` arm (`compiler.ts` lines 181–259): program built,
pre-emit diagnostics filtered, emit invoked unconditionally, then
`assert(emitResult.emitSkipped === false)`; on success the two-element
response `[itemsOrUndefined, bundle ? emitBundle : emitMap]` is posted.
(The final `assert(state.emitMap)` always passes: `emitMap` is an object.) -/
def handleRuntimeCompile (ignored : List Nat) (o : EngineOracle)
    (bundle : Option Bool) : List Event :=
  let bundleB := boolTruthy bundle
  let diagnostics := filterIgnored ignored o.preEmitDiagnostics
  let state := runtimeEmitState bundleB o.emitWrites
  if o.emitSkipped then
    [Event.programCreated, Event.emitInvoked, Event.assertFailed]
  else
    let items := (fromTypeScriptDiagnostic diagnostics).items
    [Event.programCreated, Event.emitInvoked,
     Event.posted (.runtimeResult
       (if items.isEmpty then none else some items)
       (if bundleB then .bundleText state.emitBundle else .mapOutput state.emitMap)),
     Event.workerClosed]

/-- The `RuntimeTranspile` arm (`compiler.ts` lines 260–284): one
`ts.transpileModule` call per `(fileName, inputText)` entry, collected into
the response mapping in input order. -/
def handleRuntimeTranspile (o : EngineOracle)
    (sources : List (String × String)) : List Event :=
  let result := sources.map (fun p =>
    (p.1, TranspileOnlyResult.mk (o.transpile p.1 p.2).1 (o.transpile p.1 p.2).2))
  [Event.posted (.transpileResult result), Event.workerClosed]

/-- The whole message handler installed by `compilerMain`: dispatch on the
request kind; the `default` case logs the unhandled kind and the worker
closes without posting anything. -/
def handleRequest (ignored : List Nat) (o : EngineOracle) :
    CompilerRequest → List Event
  | .compile _ configPath config bundle _ =>
      handleCompile ignored o configPath config bundle
  | .runtimeCompile _ _ bundle _ =>
      handleRuntimeCompile ignored o bundle
  | .runtimeTranspile sources _ =>
      handleRuntimeTranspile o sources
  | .unknown _ =>
      [Event.loggedUnhandled, Event.workerClosed]

/-- Is an event a posted response? -/
def isPostedEvent : Event → Bool
  | .posted _ => true
  | _ => false

/-- Number of responses posted in a trace. -/
def countPosted (t : List Event) : Nat := (t.filter isPostedEvent).length

/-- Does a request match one of the three known kinds? -/
def isKnownRequest : CompilerRequest → Bool
  | .unknown _ => false
  | _ => true

/-- A benign oracle: one resolved root, clean diagnostics, successful emit. -/
def baseOracle : EngineOracle where
  resolvedRootModules := ["main.ts"]
  configDiagnostics := none
  resolvedRootName := "main.ts"
  runtimeRootNames := ["main.ts"]
  preEmitDiagnostics := []
  emitSkipped := false
  emitDiagnostics := []
  emitWrites := []
  transpile := fun _ _ => ("", none)

/-- An oracle whose `RuntimeCompile` module resolution returned two root
modules. -/
def multiRootOracle : EngineOracle :=
  { baseOracle with runtimeRootNames := ["a.ts", "b.ts"] }

/-- An oracle whose engine emit reports `emitSkipped = true`. -/
def emitSkipOracle : EngineOracle :=
  { baseOracle with emitSkipped := true }

/-- An oracle whose engine emit returns a diagnostic with code 5. -/
def emitDiagOracle : EngineOracle :=
  { baseOracle with emitDiagnostics := [⟨5, "emit-stage diagnostic"⟩] }

/-- An oracle with one pre-emit diagnostic of code 3. -/
def preEmitDiagOracle : EngineOracle :=
  { baseOracle with preEmitDiagnostics := [⟨3, "type error"⟩] }

/-- An oracle whose `Compile` module resolution returned two root modules. -/
def multiCompileRootOracle : EngineOracle :=
  { baseOracle with resolvedRootModules := ["a.ts", "b.ts"] }

/-- An oracle whose configuration parse yields one diagnostic of code 9. -/
def configDiagOracle : EngineOracle :=
  { baseOracle with configDiagnostics := some [⟨9, "config parse error"⟩] }

/-- A compiler-option value (boolean, string or numeric setting). -/
inductive OptionValue where
  | boolVal (b : Bool)
  | strVal (s : String)
  | numVal (n : Int)
deriving DecidableEq

/-- A partial compiler-option set: an association of keys to values. -/
def OptionFragment : Type := List (String × OptionValue)

/-- Value of a key inside one fragment. -/
def lookupFrag (f : OptionFragment) (k : String) : Option OptionValue :=
  (f.find? (fun p => p.1 == k)).map (fun p => p.2)

/-- Modelled from the spec: `Host.mergeOptions` (`compiler_host.ts`, not
among the sources).  Spec §4.4: a pure left-to-right merge over an ordered
list of option fragments, later fragments overriding earlier ones per key.
`mergeLookup fs k` is the value of key `k` after merging `fs` in order. -/
def mergeLookup : List OptionFragment → String → Option OptionValue
  | [], _ => none
  | f :: fs, k => (mergeLookup fs k).orElse (fun _ => lookupFrag f k)

/-- The ordered fragment list assembled by the `RuntimeCompile` arm
(`compiler.ts` lines 213–220): the runtime defaults, then the caller's
converted overrides when supplied, then — only when bundling — the bundler
defaults appended last. -/
def runtimeCompilerOptionFragments (defaultRuntimeCompileOptions : OptionFragment)
    (convertCompilerOptions : String → OptionFragment)
    (defaultBundlerOptions : OptionFragment)
    (options : Option String) (bundle : Option Bool) : List OptionFragment :=
  [defaultRuntimeCompileOptions]
    ++ (match options with
        | some s => [convertCompilerOptions s]
        | none => [])
    ++ (if boolTruthy bundle then [defaultBundlerOptions] else [])

/-- Counterexample to claim C1: an inbound request of an unknown kind is logged and
the worker closes with no response posted, refuting "exactly one response is
posted ... including for request kinds that match none of the three known
variants". -/
theorem unknown_request_posts_no_response :
    handleRequest [] baseOracle (.unknown 7) =
      [Event.loggedUnhandled, Event.workerClosed] ∧
    countPosted (handleRequest [] baseOracle (.unknown 7)) = 0 := by
  exact ⟨rfl, rfl⟩

/-- Claim C1, amended: every trace posts at most one response; a known-kind
request whose handling hits no failed assertion posts exactly one response
and then the worker closes; an unknown-kind request is logged and the worker
closes without posting a response. -/
theorem single_response_per_request (ignored : List Nat) (o : EngineOracle)
    (req : CompilerRequest) :
    countPosted (handleRequest ignored o req) ≤ 1 ∧
    (isKnownRequest req = true →
      Event.assertFailed ∉ handleRequest ignored o req →
      countPosted (handleRequest ignored o req) = 1 ∧
      (handleRequest ignored o req).getLast? = some Event.workerClosed) ∧
    (isKnownRequest req = false →
      handleRequest ignored o req = [Event.loggedUnhandled, Event.workerClosed]) := by
  cases req with
  | compile rootNames configPath config bundle outFile =>
      simp only [handleRequest, handleCompile, isKnownRequest]
      split
      · split
        · split
          · exact ⟨by simp [countPosted, isPostedEvent],
              fun _ h => absurd (by simp) h, by simp⟩
          · exact ⟨by simp [countPosted, isPostedEvent],
              fun _ _ => ⟨by simp [countPosted, isPostedEvent], by simp⟩, by simp⟩
        · exact ⟨by simp [countPosted, isPostedEvent],
            fun _ _ => ⟨by simp [countPosted, isPostedEvent], by simp⟩, by simp⟩
      · exact ⟨by simp [countPosted, isPostedEvent],
          fun _ _ => ⟨by simp [countPosted, isPostedEvent], by simp⟩, by simp⟩
  | runtimeCompile rootName sources bundle options =>
      simp only [handleRequest, handleRuntimeCompile, isKnownRequest]
      split
      · exact ⟨by simp [countPosted, isPostedEvent],
          fun _ h => absurd (by simp) h, by simp⟩
      · exact ⟨by simp [countPosted, isPostedEvent],
          fun _ _ => ⟨by simp [countPosted, isPostedEvent], by simp⟩, by simp⟩
  | runtimeTranspile sources options =>
      exact ⟨by simp [handleRequest, handleRuntimeTranspile, countPosted, isPostedEvent],
        fun _ _ => ⟨by simp [handleRequest, handleRuntimeTranspile, countPosted, isPostedEvent],
          by simp [handleRequest, handleRuntimeTranspile]⟩,
        by simp [isKnownRequest]⟩
  | unknown t =>
      exact ⟨by simp [handleRequest, countPosted, isPostedEvent],
        by simp [isKnownRequest], fun _ => rfl⟩

/-- Witness for C1's amended theorem at a concrete known-kind request. -/
theorem single_response_per_request_holds :
    countPosted (handleRequest [] baseOracle (.runtimeTranspile [] none)) = 1 :=
  ((single_response_per_request [] baseOracle (.runtimeTranspile [] none)).2.1
    rfl (by decide)).1

/-- Counterexample to claim C2: a `RuntimeCompile` request with `bundle = true` and a
resolved root module list of two elements fails no assertion: emit is
invoked and a response is posted, refuting "for every request (any kind)". -/
theorem runtime_bundle_multi_root_no_assert :
    1 < multiRootOracle.runtimeRootNames.length ∧
    Event.assertFailed ∉
      handleRequest [] multiRootOracle (.runtimeCompile "a.ts" none (some true) none) ∧
    Event.emitInvoked ∈
      handleRequest [] multiRootOracle (.runtimeCompile "a.ts" none (some true) none) ∧
    countPosted
      (handleRequest [] multiRootOracle (.runtimeCompile "a.ts" none (some true) none)) = 1 := by
  exact ⟨by decide, by decide, by decide, by decide⟩

/-- Claim C2, amended: for every `Compile` request with `bundle = true` and more
than one resolved root module, emit is never invoked; when additionally the
configuration diagnostics and filtered pre-emit diagnostics are empty, the
worker fails the single-root assertion before emit and posts no response.
`RuntimeCompile` requests perform no such root-count check (see the
counterexample). -/
theorem compile_bundle_multi_root_asserts (ignored : List Nat) (o : EngineOracle)
    (configPath config : Option String) (bundle : Option Bool)
    (hb : boolTruthy bundle = true) (hr : 1 < o.resolvedRootModules.length) :
    Event.emitInvoked ∉ handleCompile ignored o configPath config bundle ∧
    (((compileConfigDiagnostics config configPath o).getD []).isEmpty = true →
      (filterIgnored ignored o.preEmitDiagnostics).isEmpty = true →
      handleCompile ignored o configPath config bundle =
        [Event.programCreated, Event.assertFailed] ∧
      countPosted (handleCompile ignored o configPath config bundle) = 0) := by
  have hlen : (o.resolvedRootModules.length == 1) = false := by
    simp only [beq_eq_false_iff_ne, ne_eq]
    omega
  simp only [handleCompile]
  split
  · split
    · have hcond : (boolTruthy bundle && !(o.resolvedRootModules.length == 1)) = true := by
        rw [hb, hlen]; rfl
      rw [if_pos hcond]
      exact ⟨by simp, fun _ _ => ⟨rfl, by simp [countPosted, isPostedEvent]⟩⟩
    · rename_i hcfg hd
      refine ⟨by simp, fun _ hd2 => absurd hd2 hd⟩
  · rename_i hcfg
    refine ⟨by simp, fun hc2 _ => absurd hc2 hcfg⟩

/-- Witness for C2's amended theorem: a `Compile` request bundling two
resolved root modules with clean diagnostics ends in a failed assertion. -/
theorem compile_bundle_multi_root_asserts_holds :
    handleCompile [] multiCompileRootOracle none none (some true) =
      [Event.programCreated, Event.assertFailed] :=
  ((compile_bundle_multi_root_asserts [] multiCompileRootOracle none none
      (some true) rfl (by decide)).2 rfl rfl).1

/-- A diagnostic surviving the ignored-codes filter has a code outside the
ignored set. -/
theorem mem_filterIgnored {ignored : List Nat} {ds : List TsDiagnostic}
    {d : TsDiagnostic} (h : d ∈ filterIgnored ignored ds) : d.code ∉ ignored := by
  simp only [filterIgnored, List.mem_filter, Bool.not_eq_true'] at h
  simpa using h.2

/-- A translated item of a filtered diagnostic list has a code outside the
ignored set. -/
theorem mem_map_filterIgnored {ignored : List Nat} {ds : List TsDiagnostic}
    {it : DiagnosticItem}
    (h : it ∈ (filterIgnored ignored ds).map fromTsDiagnosticItem) :
    it.code ∉ ignored := by
  rcases List.mem_map.mp h with ⟨d, hd, rfl⟩
  exact mem_filterIgnored hd

/-- Counterexample to claim C3: with ignored set `{5}`, a `Compile` request whose
engine emit returns a diagnostic with code 5 posts that diagnostic in its
response: emit-stage diagnostics are not run through the ignored-codes
filter, refuting "no diagnostic whose code is in the ignored set ever
appears in any response". -/
theorem ignored_code_posted_in_compile_response :
    (5 : Nat) ∈ [5] ∧
    Event.posted (.compileResult ⟨false, some ⟨[⟨5, "emit-stage diagnostic"⟩]⟩⟩) ∈
      handleRequest [5] emitDiagOracle (.compile ["main.ts"] none none none none) := by
  exact ⟨by decide, by decide⟩

/-- Claim C3, amended: filtering by the ignored set is deterministic (it is a
pure function) and idempotent; no surviving diagnostic's code is in the
ignored set; every `RuntimeCompile` response's diagnostic items avoid the
ignored set; and a `Compile` response whose diagnostics come from the
pre-emit check avoids the ignored set — but `Compile` responses carrying
configuration-parse or emit-stage diagnostics are posted unfiltered. -/
theorem diagnostics_filter_regular (ignored : List Nat) :
    (∀ ds : List TsDiagnostic,
      filterIgnored ignored (filterIgnored ignored ds) = filterIgnored ignored ds) ∧
    (∀ ds : List TsDiagnostic, ∀ d ∈ filterIgnored ignored ds, d.code ∉ ignored) ∧
    (∀ (o : EngineOracle) (bundle : Option Bool)
      (items : List DiagnosticItem) (out : RuntimeEmitOutput),
      Event.posted (.runtimeResult (some items) out) ∈
        handleRuntimeCompile ignored o bundle →
      ∀ it ∈ items, it.code ∉ ignored) ∧
    (∀ (o : EngineOracle) (configPath config : Option String) (bundle : Option Bool),
      ((compileConfigDiagnostics config configPath o).getD []).isEmpty = true →
      (filterIgnored ignored o.preEmitDiagnostics).isEmpty = false →
      handleCompile ignored o configPath config bundle =
        [Event.programCreated,
         Event.posted (.compileResult
           ⟨true, some (fromTypeScriptDiagnostic
              (filterIgnored ignored o.preEmitDiagnostics))⟩),
         Event.workerClosed] ∧
      ∀ it ∈ (fromTypeScriptDiagnostic
          (filterIgnored ignored o.preEmitDiagnostics)).items,
        it.code ∉ ignored) := by
  refine ⟨?_, ?_, ?_, ?_⟩
  · intro ds
    simp only [filterIgnored, List.filter_filter, Bool.and_self]
  · intro ds d h
    exact mem_filterIgnored h
  · intro o bundle items out hmem it hit
    simp only [handleRuntimeCompile] at hmem
    split at hmem
    · simp at hmem
    · simp only [List.mem_cons, List.not_mem_nil, or_false] at hmem
      rcases hmem with h | h | h | h
      · exact absurd h (by simp)
      · exact absurd h (by simp)
      · rw [Event.posted.injEq] at h
        by_cases he : ((fromTypeScriptDiagnostic
            (filterIgnored ignored o.preEmitDiagnostics)).items).isEmpty
        · rw [if_pos he] at h
          exact absurd (Response.runtimeResult.injEq .. |>.mp h).1 (by simp)
        · rw [if_neg he] at h
          have hi := (Response.runtimeResult.injEq .. |>.mp h).1
          rw [Option.some.injEq] at hi
          subst hi
          exact mem_map_filterIgnored hit
      · exact absurd h (by simp)
  · intro o configPath config bundle h1 h2
    simp only [handleCompile]
    rw [if_pos h1, if_neg (by simp [h2])]
    refine ⟨?_, ?_⟩
    · rw [diagListToWire, if_neg (by simp [h2])]
    · intro it hit
      exact mem_map_filterIgnored hit

/-- Witness for C3's amended theorem: the surviving pre-emit diagnostic of
code 3 posted by a concrete `RuntimeCompile` request is outside the ignored
set `{5}`. -/
theorem diagnostics_filter_regular_holds :
    (DiagnosticItem.mk 3 "type error").code ∉ [5] :=
  (diagnostics_filter_regular [5]).2.2.1 preEmitDiagOracle none
    [⟨3, "type error"⟩] (.mapOutput []) (by decide) ⟨3, "type error"⟩ (by decide)

/-- Counterexample to claim C4: a `Compile` request with zero filtered pre-emit
diagnostics whose engine emit reports `emitSkipped = true` posts a
`CompileResult` with `emitSkipped = true`, refuting "the posted
CompileResult has emitSkipped = false": the response mirrors the engine's
emit result rather than guaranteeing `false`. -/
theorem compile_clean_may_report_emit_skipped :
    (filterIgnored [] emitSkipOracle.preEmitDiagnostics).isEmpty = true ∧
    Event.posted (.compileResult ⟨true, none⟩) ∈
      handleRequest [] emitSkipOracle (.compile ["main.ts"] none none none none) ∧
    Event.posted (.compileResult ⟨false, none⟩) ∉
      handleRequest [] emitSkipOracle (.compile ["main.ts"] none none none none) := by
  exact ⟨by decide, by decide, by decide⟩

/-- Claim C4, amended: for every `Compile` request with zero configuration
diagnostics, zero filtered pre-emit diagnostics and (when bundling) a single
resolved root module, the posted `CompileResult` carries the engine emit
result's `emitSkipped` flag and its diagnostics; in particular when the
engine emit succeeds (`emitSkipped = false`) with no diagnostics, the
response is `emitSkipped = false` with the diagnostics field absent. -/
theorem compile_clean_emit_response (ignored : List Nat) (o : EngineOracle)
    (configPath config : Option String) (bundle : Option Bool)
    (hc : ((compileConfigDiagnostics config configPath o).getD []).isEmpty = true)
    (hd : (filterIgnored ignored o.preEmitDiagnostics).isEmpty = true)
    (hb : boolTruthy bundle = true → o.resolvedRootModules.length = 1) :
    handleCompile ignored o configPath config bundle =
      [Event.programCreated, Event.emitInvoked,
       Event.posted (.compileResult ⟨o.emitSkipped, diagListToWire o.emitDiagnostics⟩),
       Event.workerClosed] ∧
    (o.emitSkipped = false → o.emitDiagnostics = [] →
      Event.posted (.compileResult ⟨false, none⟩) ∈
        handleCompile ignored o configPath config bundle) := by
  have hcond : (boolTruthy bundle && !(o.resolvedRootModules.length == 1)) = false := by
    cases hbt : boolTruthy bundle
    · rfl
    · rw [hb hbt]; rfl
  have htr : handleCompile ignored o configPath config bundle =
      [Event.programCreated, Event.emitInvoked,
       Event.posted (.compileResult ⟨o.emitSkipped, diagListToWire o.emitDiagnostics⟩),
       Event.workerClosed] := by
    simp only [handleCompile]
    rw [if_pos hc, if_pos hd, if_neg (by simp [hcond])]
  refine ⟨htr, fun he hg => ?_⟩
  rw [htr, he, hg]
  simp [diagListToWire]

/-- Witness for C4's amended theorem at a clean request with a successful
engine emit. -/
theorem compile_clean_emit_response_holds :
    Event.posted (.compileResult ⟨false, none⟩) ∈
      handleCompile [] baseOracle none none none :=
  (compile_clean_emit_response [] baseOracle none none none rfl rfl
    (fun h => by simp [boolTruthy] at h)).2 rfl rfl

/-- Claim C5: a `RuntimeCompile` request whose engine emit reports
`emitSkipped = true` fails the `assert(emitResult.emitSkipped === false)`
assertion after emit and posts no response; in the `Compile` path a failed
assertion can only come from the single-root bundling invariant, so a
skipped emit never aborts a `Compile` request. -/
theorem runtime_emit_skip_fatal (ignored : List Nat) (o : EngineOracle)
    (bundle : Option Bool) (configPath config : Option String)
    (bundleC : Option Bool) :
    (o.emitSkipped = true →
      handleRuntimeCompile ignored o bundle =
        [Event.programCreated, Event.emitInvoked, Event.assertFailed] ∧
      countPosted (handleRuntimeCompile ignored o bundle) = 0) ∧
    (Event.assertFailed ∈ handleCompile ignored o configPath config bundleC →
      boolTruthy bundleC = true ∧ o.resolvedRootModules.length ≠ 1) := by
  constructor
  · intro he
    have htr : handleRuntimeCompile ignored o bundle =
        [Event.programCreated, Event.emitInvoked, Event.assertFailed] := by
      simp only [handleRuntimeCompile]
      rw [if_pos he]
    exact ⟨htr, by rw [htr]; rfl⟩
  · intro hmem
    simp only [handleCompile] at hmem
    split at hmem
    · split at hmem
      · split at hmem
        · rename_i hcond
          have := Bool.and_eq_true .. |>.mp hcond
          refine ⟨this.1, ?_⟩
          have h2 := this.2
          simp only [Bool.not_eq_true', beq_eq_false_iff_ne, ne_eq] at h2
          exact h2
        · simp at hmem
      · simp at hmem
    · simp at hmem

/-- Witness for C5 at a concrete skipped runtime emit. -/
theorem runtime_emit_skip_fatal_holds :
    countPosted (handleRuntimeCompile [] emitSkipOracle none) = 0 :=
  ((runtime_emit_skip_fatal [] emitSkipOracle none none none none).1 rfl).2

/-- Claim C6: every `RuntimeCompile` request whose engine emit is not skipped
posts exactly one response, a two-element value whose second element is the
accumulated `emitBundle` when the bundle flag is truthy and the accumulated
`emitMap` otherwise — never the other — and whose first element is the
translated diagnostic items, absent when there are none. -/
theorem runtime_response_shape (ignored : List Nat) (o : EngineOracle)
    (bundle : Option Bool) (he : o.emitSkipped = false) :
    countPosted (handleRuntimeCompile ignored o bundle) = 1 ∧
    Event.posted (.runtimeResult
        (if ((filterIgnored ignored o.preEmitDiagnostics).map
              fromTsDiagnosticItem).isEmpty
         then none
         else some ((filterIgnored ignored o.preEmitDiagnostics).map
              fromTsDiagnosticItem))
        (if boolTruthy bundle
         then .bundleText (runtimeEmitState (boolTruthy bundle) o.emitWrites).emitBundle
         else .mapOutput (runtimeEmitState (boolTruthy bundle) o.emitWrites).emitMap)) ∈
      handleRuntimeCompile ignored o bundle ∧
    (boolTruthy bundle = true → ∀ d m,
      Event.posted (.runtimeResult d (.mapOutput m)) ∉
        handleRuntimeCompile ignored o bundle) ∧
    (boolTruthy bundle = false → ∀ d b,
      Event.posted (.runtimeResult d (.bundleText b)) ∉
        handleRuntimeCompile ignored o bundle) := by
  have htr : handleRuntimeCompile ignored o bundle =
      [Event.programCreated, Event.emitInvoked,
       Event.posted (.runtimeResult
         (if ((filterIgnored ignored o.preEmitDiagnostics).map
               fromTsDiagnosticItem).isEmpty
          then none
          else some ((filterIgnored ignored o.preEmitDiagnostics).map
               fromTsDiagnosticItem))
         (if boolTruthy bundle
          then .bundleText (runtimeEmitState (boolTruthy bundle) o.emitWrites).emitBundle
          else .mapOutput (runtimeEmitState (boolTruthy bundle) o.emitWrites).emitMap)),
       Event.workerClosed] := by
    simp only [handleRuntimeCompile]
    rw [if_neg (by simp [he])]
    rfl
  rw [htr]
  refine ⟨rfl, by simp, ?_, ?_⟩
  · intro hb d m
    simp [hb]
  · intro hb d b
    simp [hb]

/-- Witness for C6 at a concrete successful runtime compile. -/
theorem runtime_response_shape_holds :
    countPosted (handleRuntimeCompile [] baseOracle none) = 1 :=
  (runtime_response_shape [] baseOracle none rfl).1

/-- Claim C7: a `Compile` request supplying a non-empty config source and a
non-empty config path whose configuration parse yields one or more
diagnostics posts a response with `emitSkipped = true` carrying exactly
those configuration diagnostics, without constructing the program or
invoking emit. -/
theorem config_failure_short_circuits (ignored : List Nat) (o : EngineOracle)
    (configPath config : Option String) (bundle : Option Bool)
    (ds : List TsDiagnostic)
    (hc : strTruthy config = true) (hp : strTruthy configPath = true)
    (hd : o.configDiagnostics = some ds) (hne : ds ≠ []) :
    handleCompile ignored o configPath config bundle =
      [Event.posted (.compileResult ⟨true, some (fromTypeScriptDiagnostic ds)⟩),
       Event.workerClosed] ∧
    Event.programCreated ∉ handleCompile ignored o configPath config bundle ∧
    Event.emitInvoked ∉ handleCompile ignored o configPath config bundle := by
  have hcfg : compileConfigDiagnostics config configPath o = some ds := by
    rw [compileConfigDiagnostics, if_pos (by rw [hc, hp]; rfl), hd]
  have htr : handleCompile ignored o configPath config bundle =
      [Event.posted (.compileResult ⟨true, some (fromTypeScriptDiagnostic ds)⟩),
       Event.workerClosed] := by
    simp only [handleCompile, hcfg]
    rw [if_neg (by simp [hne]), Option.getD_some, diagListToWire,
      if_neg (by simp [hne])]
  exact ⟨htr, by rw [htr]; simp, by rw [htr]; simp⟩

/-- Witness for C7 at a concrete failing configuration parse. -/
theorem config_failure_short_circuits_holds :
    handleCompile [] configDiagOracle (some "/tsconfig.json") (some "cfg") none =
      [Event.posted (.compileResult
         ⟨true, some (fromTypeScriptDiagnostic [⟨9, "config parse error"⟩])⟩),
       Event.workerClosed] :=
  (config_failure_short_circuits [] configDiagOracle (some "/tsconfig.json")
    (some "cfg") none [⟨9, "config parse error"⟩] rfl rfl rfl (by decide)).1

/-- A key present in the last fragment takes its value from there. -/
theorem mergeLookup_last {g : OptionFragment} {k : String} {v : OptionValue}
    (h : lookupFrag g k = some v) :
    ∀ fs : List OptionFragment, mergeLookup (fs ++ [g]) k = some v := by
  intro fs
  induction fs with
  | nil => simp [mergeLookup, h, Option.orElse]
  | cons f t ih => simp [mergeLookup, ih, Option.orElse]

/-- Claim C8: per-key left-to-right overwrite — over any pair of fragments the
later one wins on shared keys and a key set in only one fragment survives;
a key of the final fragment always takes its value from there; and in the
`RuntimeCompile` fragment order the bundler fragment is appended last, so
caller-supplied overrides cannot change its keys. -/
theorem options_merge_overwrite :
    (∀ (f g : OptionFragment) (k : String),
      mergeLookup [f, g] k = (lookupFrag g k).orElse (fun _ => lookupFrag f k)) ∧
    (∀ (f g : OptionFragment) (k : String), lookupFrag g k = none →
      mergeLookup [f, g] k = lookupFrag f k) ∧
    (∀ (fs : List OptionFragment) (g : OptionFragment) (k : String) (v : OptionValue),
      lookupFrag g k = some v → mergeLookup (fs ++ [g]) k = some v) ∧
    (∀ (defaults bundlerDefaults : OptionFragment)
      (convert : String → OptionFragment)
      (options : Option String) (bundle : Option Bool) (k : String) (v : OptionValue),
      boolTruthy bundle = true → lookupFrag bundlerDefaults k = some v →
      mergeLookup (runtimeCompilerOptionFragments defaults convert bundlerDefaults
        options bundle) k = some v) := by
  refine ⟨?_, ?_, ?_, ?_⟩
  · intro f g k
    simp [mergeLookup, Option.orElse]
  · intro f g k h
    simp [mergeLookup, h, Option.orElse]
  · intro fs g k v h
    exact mergeLookup_last h fs
  · intro defaults bundlerDefaults convert options bundle k v hb h
    have hfr : runtimeCompilerOptionFragments defaults convert bundlerDefaults
        options bundle =
        ([defaults] ++ (match options with
          | some s => [convert s]
          | none => [])) ++ [bundlerDefaults] := by
      rw [runtimeCompilerOptionFragments.eq_def, if_pos hb, List.append_assoc]
    rw [hfr]
    exact mergeLookup_last h _

/-- Witness for C8: the spec's example — runtime defaults setting
`strict: true`, a caller override setting `module: "es6"`, and the bundler
fragment setting `module: "amd"` appended last — merges to
`module = "amd"`. -/
theorem options_merge_overwrite_holds :
    mergeLookup (runtimeCompilerOptionFragments
      [("strict", OptionValue.boolVal true)]
      (fun _ => [("module", OptionValue.strVal "es6")])
      [("module", OptionValue.strVal "amd")]
      (some "overrides") (some true)) "module" =
      some (OptionValue.strVal "amd") :=
  options_merge_overwrite.2.2.2 [("strict", OptionValue.boolVal true)]
    [("module", OptionValue.strVal "amd")]
    (fun _ => [("module", OptionValue.strVal "es6")])
    (some "overrides") (some true) "module" (OptionValue.strVal "amd")
    rfl (by decide)

/-- Claim C9: a `RuntimeTranspile` request posts one response mapping with exactly
one entry per input filename, in input order (no extra and no missing keys,
and distinct input filenames give distinct response keys); each entry's
`source` field holds the engine's `outputText`, which is present for every
input by construction. -/
theorem transpile_response_keys (o : EngineOracle)
    (sources : List (String × String)) :
    handleRuntimeTranspile o sources =
      [Event.posted (.transpileResult (sources.map (fun p =>
         (p.1, TranspileOnlyResult.mk (o.transpile p.1 p.2).1 (o.transpile p.1 p.2).2)))),
       Event.workerClosed] ∧
    (sources.map (fun p =>
        (p.1, TranspileOnlyResult.mk (o.transpile p.1 p.2).1
          (o.transpile p.1 p.2).2))).map Prod.fst = sources.map Prod.fst ∧
    ((sources.map Prod.fst).Nodup →
      ((sources.map (fun p =>
          (p.1, TranspileOnlyResult.mk (o.transpile p.1 p.2).1
            (o.transpile p.1 p.2).2))).map Prod.fst).Nodup) := by
  have hkeys : (sources.map (fun p =>
      (p.1, TranspileOnlyResult.mk (o.transpile p.1 p.2).1
        (o.transpile p.1 p.2).2))).map Prod.fst = sources.map Prod.fst := by
    rw [List.map_map]
    rfl
  exact ⟨rfl, hkeys, fun h => by rw [hkeys]; exact h⟩

/-- Witness for C9 at a concrete single-file transpile request. -/
theorem transpile_response_keys_holds :
    (([("a.ts", "const x = 1;")].map (fun p =>
        (p.1, TranspileOnlyResult.mk (baseOracle.transpile p.1 p.2).1
          (baseOracle.transpile p.1 p.2).2))).map Prod.fst).Nodup :=
  (transpile_response_keys baseOracle [("a.ts", "const x = 1;")]).2.2 (by decide)

/-- Claim C10: the `RuntimeCompile` arm invokes the engine's emit unconditionally
— in every trace, including those with non-empty filtered pre-emit
diagnostics — and when the emit is not skipped the posted response carries
the non-empty diagnostic items together with the emitted output selected by
the bundle flag. -/
theorem runtime_emit_unconditional (ignored : List Nat) (o : EngineOracle)
    (bundle : Option Bool) :
    Event.emitInvoked ∈ handleRuntimeCompile ignored o bundle ∧
    (o.emitSkipped = false →
      filterIgnored ignored o.preEmitDiagnostics ≠ [] →
      Event.posted (.runtimeResult
          (some ((filterIgnored ignored o.preEmitDiagnostics).map
            fromTsDiagnosticItem))
          (if boolTruthy bundle
           then .bundleText (runtimeEmitState (boolTruthy bundle) o.emitWrites).emitBundle
           else .mapOutput (runtimeEmitState (boolTruthy bundle) o.emitWrites).emitMap)) ∈
        handleRuntimeCompile ignored o bundle) := by
  constructor
  · simp only [handleRuntimeCompile]
    split
    · simp
    · simp
  · intro he hne
    simp only [handleRuntimeCompile]
    rw [if_neg (by simp [he])]
    have hitems : ((fromTypeScriptDiagnostic
        (filterIgnored ignored o.preEmitDiagnostics)).items).isEmpty = false := by
      simp [fromTypeScriptDiagnostic, hne]
    rw [if_neg (by simp [hitems])]
    simp [fromTypeScriptDiagnostic]

/-- Witness for C10: with one surviving pre-emit diagnostic and a
successful emit, the response carries both the diagnostic items and the
emit map. -/
theorem runtime_emit_unconditional_holds :
    Event.posted (.runtimeResult
        (some [⟨3, "type error"⟩])
        (.mapOutput (runtimeEmitState false []).emitMap)) ∈
      handleRuntimeCompile [] preEmitDiagOracle none :=
  (runtime_emit_unconditional [] preEmitDiagOracle none).2 rfl (by decide)

end DenoCompiler
